import Mathlib

/-!
Shallow embedding of `src/app.py` (Bedtime Story Weaver, a Streamlit app).

The app has two API clients (`generate_story`, `text_to_speech`), a prompt
assembler (lines 188-194), a WAV transcoding step (lines 80-89), and button
handlers (lines 182-214).  HTTP traffic, JSON bodies and Python exceptions are
modelled explicitly: an operation's result records whether it returned a value,
showed a handled error via `st.error`, or let an exception escape.
-/

set_option autoImplicit false

namespace StoryWeaver

/-- Kinds of Python exceptions that can arise in `app.py`.  `requestException`
covers `requests.exceptions.RequestException` and its subclasses (connection
errors, and the `HTTPError` raised by `raise_for_status`); `valueError` covers
`ValueError` and its subclasses (`binascii.Error` from `base64.b64decode`,
`int()` parse failures); `waveError` is `wave.Error`. -/
inductive PyExnKind where
  | requestException
  | keyError
  | indexError
  | valueError
  | attributeError
  | typeError
  | waveError
  deriving DecidableEq

/-- Minimal JSON values, enough for the bodies `app.py` manipulates. -/
inductive Jx where
  | obj : List (String × Jx) → Jx
  | arr : List Jx → Jx
  | str : String → Jx
  | num : Int → Jx

/-- First binding of a key in an association list (Python dict access on the
literals used here, which have no duplicate keys). -/
def lookupStr : List (String × Jx) → String → Option Jx
  | [], _ => none
  | (k, v) :: rest, key => if k = key then some v else lookupStr rest key

/-- Python `d[k]`: `KeyError` when the key is missing, `TypeError` when the
value subscripted with a string key is not a dict. -/
def getKey : Jx → String → Except PyExnKind Jx
  | .obj fs, k =>
    match lookupStr fs k with
    | some v => .ok v
    | none => .error .keyError
  | _, _ => .error .typeError

/-- Python `l[i]` for a non-negative literal index: `IndexError` when the list
is too short, `TypeError` when the value is not a list. -/
def getIdx : Jx → Nat → Except PyExnKind Jx
  | .arr l, i =>
    match l.drop i with
    | [] => .error .indexError
    | v :: _ => .ok v
  | _, _ => .error .typeError

/-- Line 41: `result['candidates'][0]['content']['parts'][0]['text']`. -/
def extract_story (result : Jx) : Except PyExnKind Jx := do
  let cands ← getKey result "candidates"
  let c0 ← getIdx cands 0
  let content ← getKey c0 "content"
  let parts ← getKey content "parts"
  let p0 ← getIdx parts 0
  getKey p0 "text"

/-- Outcome of the HTTP round-trip made by `requests.post`: either the call
itself raises a `RequestException` (network failure), or a response with a
status code and a JSON body comes back. -/
inductive HttpOutcome where
  | netError
  | resp : Nat → Jx → HttpOutcome

/-- Result of `generate_story` (lines 25-45): a returned story value, a
locally handled failure (`st.error` shown, `None` returned), or an exception
escaping to the caller. -/
inductive GenResult where
  | ok : Jx → GenResult
  | handledError : GenResult
  | unhandled : PyExnKind → GenResult

/-- Exception kinds caught by `generate_story`'s single `except` clause
(line 43): only `requests.exceptions.RequestException`. -/
def gen_caught : PyExnKind → Bool
  | .requestException => true
  | _ => false

/-- Lines 37-45 of `app.py`.  `response.raise_for_status()` raises `HTTPError`
(a `RequestException`) exactly for 4xx/5xx statuses; the body extraction of
line 41 can raise `KeyError`/`IndexError`/`TypeError`, none of which the
`except` clause on line 43 catches. -/
def generate_story (net : HttpOutcome) : GenResult :=
  match net with
  | .netError => .handledError
  | .resp status body =>
    if 400 ≤ status ∧ status < 600 then
      .handledError
    else
      match extract_story body with
      | .ok t => .ok t
      | .error k => .unhandled k

/-- Result of `text_to_speech` (lines 48-96). -/
inductive TTSResult where
  | ok : List Nat → TTSResult
  | handledTransport : TTSResult
  | handledStructure : TTSResult
  | unhandled : PyExnKind → TTSResult
  deriving DecidableEq

/-- Exception kinds caught by `text_to_speech`'s `except` clauses
(lines 91 and 94): `RequestException`, and `(KeyError, IndexError)`. -/
def tts_caught : PyExnKind → Bool
  | .requestException => true
  | .keyError => true
  | .indexError => true
  | _ => false

/-- Lines 65-96 of `app.py`.  Line 67 reads `response.raise_s_status()` — the
`Response` object has no such attribute, so every response that comes back
raises `AttributeError` there, which neither `except` clause catches.  Only a
`RequestException` raised by `requests.post` itself (network failure) is
handled.  Lines 68-90 are unreachable; they are modelled separately as
`tts_success_path`. -/
def text_to_speech (net : HttpOutcome) : TTSResult :=
  match net with
  | .netError => .handledTransport
  | .resp _ _ => .unhandled .attributeError

/-- Python `str.split(sep)` worker for a non-empty separator: scans left to
right, emitting a chunk at each non-overlapping occurrence of `sep`.  `acc`
holds the current chunk reversed; `skip` counts characters of an already
recognised separator occurrence still to be consumed. -/
def pySplitGo (sep : List Char) : List Char → List Char → Nat → List (List Char)
  | [], acc, _ => [acc.reverse]
  | _ :: cs, acc, Nat.succ k => pySplitGo sep cs acc k
  | c :: cs, acc, 0 =>
    if sep.isPrefixOf (c :: cs) then
      acc.reverse :: pySplitGo sep cs [] (sep.length - 1)
    else
      pySplitGo sep cs (c :: acc) 0

/-- Python `s.split(sep)` for a non-empty separator. -/
def pySplit (sep s : List Char) : List (List Char) := pySplitGo sep s [] 0

/-- Decimal digit value, else `none`. -/
def digitVal (c : Char) : Option Nat :=
  if '0' ≤ c ∧ c ≤ '9' then some (c.toNat - 48) else none

/-- Digits of a Python int literal after the first: single underscores are
permitted between digits, nowhere else. -/
def parseUIntGo (acc : Nat) : List Char → Option Nat
  | [] => some acc
  | '_' :: rest =>
    match rest with
    | [] => none
    | c :: cs =>
      match digitVal c with
      | some d => parseUIntGo (acc * 10 + d) cs
      | none => none
  | c :: cs =>
    match digitVal c with
    | some d => parseUIntGo (acc * 10 + d) cs
    | none => none

/-- Non-empty digit string (with Python's underscore grouping rule). -/
def parseUInt : List Char → Option Nat
  | [] => none
  | c :: cs =>
    match digitVal c with
    | some d => parseUIntGo d cs
    | none => none

/-- ASCII whitespace stripped by Python `int(str)`. -/
def isPySpace (c : Char) : Bool :=
  c = ' ' ∨ c = '\t' ∨ c = '\n' ∨ c = '\r' ∨ c = Char.ofNat 11 ∨ c = Char.ofNat 12

/-- Python `int(s)` on a string: strips surrounding whitespace, allows one
sign character, then base-10 digits (underscore grouping allowed); anything
else raises `ValueError`. -/
def pyIntChars (l : List Char) : Except PyExnKind Int :=
  let t := ((l.dropWhile isPySpace).reverse.dropWhile isPySpace).reverse
  match t with
  | '+' :: rest =>
    match parseUInt rest with
    | some n => .ok (n : Int)
    | none => .error .valueError
  | '-' :: rest =>
    match parseUInt rest with
    | some n => .ok (-(n : Int))
    | none => .error .valueError
  | rest =>
    match parseUInt rest with
    | some n => .ok (n : Int)
    | none => .error .valueError

/-- Lines 77-78: `sample_rate_str = mime_type.split('rate=')[1]` followed by
`sample_rate = int(sample_rate_str)`.  Indexing `[1]` raises `IndexError`
when `'rate='` does not occur; `int` raises `ValueError` when the chunk
between the first and second occurrence is not an integer literal. -/
def extract_rate (mime : String) : Except PyExnKind Int :=
  match (pySplit "rate=".data mime.data).drop 1 with
  | [] => .error .indexError
  | x :: _ => pyIntChars x

/-- Value of a standard base64 alphabet character. -/
def b64val (c : Char) : Option Nat :=
  if 'A' ≤ c ∧ c ≤ 'Z' then some (c.toNat - 65)
  else if 'a' ≤ c ∧ c ≤ 'z' then some (c.toNat - 97 + 26)
  else if '0' ≤ c ∧ c ≤ '9' then some (c.toNat - 48 + 52)
  else if c = '+' then some 62
  else if c = '/' then some 63
  else none

/-- Bytes of a run of 6-bit base64 values: full quads give 3 bytes, a final
pair gives 1 byte, a final triple gives 2 bytes. -/
def b64groups : List Nat → List Nat
  | a :: b :: c :: d :: rest =>
    (a * 4 + b / 16) :: ((b % 16) * 16 + c / 4) :: ((c % 4) * 64 + d) :: b64groups rest
  | [a, b] => [a * 4 + b / 16]
  | [a, b, c] => [a * 4 + b / 16, (b % 16) * 16 + c / 4]
  | _ => []

/-- Line 74: `base64.b64decode(audio_data_b64)` (default `validate=False`).
Characters outside the alphabet are discarded; the count of data characters
plus `'='` padding must be a multiple of 4 and the data-character count must
not be 1 mod 4, otherwise `binascii.Error` — a subclass of `ValueError` — is
raised. -/
def b64decode (s : String) : Except PyExnKind (List Nat) :=
  let kept := s.data.filter fun c => (b64val c).isSome || c = '='
  let dataChars := kept.takeWhile fun c => c ≠ '='
  let pad := kept.length - dataChars.length
  let vals := dataChars.filterMap b64val
  if (vals.length + pad) % 4 ≠ 0 ∨ vals.length % 4 = 1 then
    .error .valueError
  else
    .ok (b64groups vals)

/-- Little-endian byte encoding of `x` in `w` bytes. -/
def leBytes (w x : Nat) : List Nat := (List.range w).map fun i => x / 256 ^ i % 256

/-- Code points of an ASCII string, as bytes. -/
def asciiBytes (s : String) : List Nat := s.data.map Char.toNat

/-- The 44-byte RIFF/WAVE header the `wave` module writes for `n` data bytes,
mono, 16-bit samples, at `rate` frames per second. -/
def wavHeader (n rate : Nat) : List Nat :=
  asciiBytes "RIFF" ++ leBytes 4 (36 + n) ++ asciiBytes "WAVE" ++
  asciiBytes "fmt " ++ leBytes 4 16 ++ leBytes 2 1 ++ leBytes 2 1 ++
  leBytes 4 rate ++ leBytes 4 (rate * 2) ++ leBytes 2 2 ++ leBytes 2 16 ++
  asciiBytes "data" ++ leBytes 4 n

/-- Lines 80-89: the in-memory WAV transcoding.  `wave` writes the header,
then `writeframes` appends the PCM bytes verbatim, and closing the writer
patches the two length fields counted above. -/
def pcm_to_wav (pcm : List Nat) (rate : Nat) : List Nat :=
  wavHeader pcm.length rate ++ pcm

/-- Coercion of a JSON value used where `app.py` needs a `str` (the base64
payload and the mimeType); another type would make the subsequent
`b64decode`/`.split` call raise. -/
def jxStr : Jx → Except PyExnKind String
  | .str s => .ok s
  | _ => .error .typeError

/-- Lines 68-90 of `app.py` as they would execute after a response is
obtained: field extraction (lines 70-71), base64 decode (line 74), sample
rate parse (lines 77-78), WAV transcoding (lines 80-89).  In the code as
written this path is unreachable: line 67 raises `AttributeError` first.
`wave.Error` models `setframerate` rejecting a non-positive rate. -/
def tts_success_path (body : Jx) : Except PyExnKind (List Nat) := do
  let cands ← getKey body "candidates"
  let c0 ← getIdx cands 0
  let content ← getKey c0 "content"
  let parts ← getKey content "parts"
  let p0 ← getIdx parts 0
  let inl ← getKey p0 "inlineData"
  let dataJ ← getKey inl "data"
  let mimeJ ← getKey inl "mimeType"
  let dataS ← jxStr dataJ
  let mimeS ← jxStr mimeJ
  let pcm ← b64decode dataS
  let rate ← extract_rate mimeS
  if 0 < rate then .ok (pcm_to_wav pcm rate.toNat) else .error .waveError

/-- Lines 189-194: the prompt assembled for the generation call.  Python's
`if tips:` is string truthiness, i.e. the tips line is appended exactly when
`tips` is a non-empty string (whitespace-only is truthy). -/
def story_prompt (characters genre age_group tips : String) : String :=
  "Create a story for the following details:\n\n" ++
  "Characters: " ++ characters ++ "\n" ++
  "Genre: " ++ genre ++ "\n" ++
  "Age Group: " ++ age_group ++ "\n" ++
  (if tips ≠ "" then "Additional Tips: " ++ tips ++ "\n" else "")

/-- Splits a character sequence at every newline; a sequence with `k`
newlines yields `k + 1` lines. -/
def splitLines : List Char → List (List Char)
  | [] => [[]]
  | c :: cs =>
    if c = '\n' then
      [] :: splitLines cs
    else
      match splitLines cs with
      | [] => [[c]]
      | l :: ls => (c :: l) :: ls

/-- Python truthiness of the JSON values `app.py` tests with `if story:`. -/
def pyTruthy : Jx → Bool
  | .str s => s != ""
  | .num n => n != 0
  | .arr l => !l.isEmpty
  | .obj l => !l.isEmpty

/-- Observable effects of the button handlers: an `st.error` message, a call
into one of the two API clients (with its arguments), audio playback, or an
exception escaping the script run. -/
inductive UIEvent where
  | shownError : String → UIEvent
  | calledGenerate : String → String → UIEvent
  | calledTTS : Jx → String → UIEvent
  | playedAudio : List Nat → UIEvent
  | raisedUnhandled : PyExnKind → UIEvent

/-- Line 184. -/
def apiKeyErrorMsg : String := "Please enter your Gemini API key in the sidebar."

/-- Line 186. -/
def charactersErrorMsg : String := "Please enter at least one character to get started."

/-- Line 44 (the interpolated exception detail is omitted). -/
def genErrorMsg : String := "Error generating story. Check your API key and try again: "

/-- Line 92 (the interpolated exception detail is omitted). -/
def ttsTransportErrorMsg : String := "Error generating audio. Check your API key and try again: "

/-- Line 95 (the interpolated exception detail is omitted). -/
def ttsStructureErrorMsg : String := "Unexpected API response structure: "

/-- Lines 182-199: the "Generate Story" handler.  Validates the API key and
the characters field before any network call; otherwise assembles the prompt,
calls `generate_story`, and stores the result in `st.session_state.story_text`
only when the returned value is truthy (line 198 `if story:`).  Returns the
emitted events and the session story slot after the run. -/
def generate_click (api_key characters genre age_group tips : String)
    (net : HttpOutcome) (session : Option Jx) : List UIEvent × Option Jx :=
  if api_key = "" then
    ([.shownError apiKeyErrorMsg], session)
  else if characters = "" then
    ([.shownError charactersErrorMsg], session)
  else
    let prompt := story_prompt characters genre age_group tips
    match generate_story net with
    | .ok story =>
      ([.calledGenerate prompt api_key],
       if pyTruthy story then some story else session)
    | .handledError =>
      ([.calledGenerate prompt api_key, .shownError genErrorMsg], session)
    | .unhandled k =>
      ([.calledGenerate prompt api_key, .raisedUnhandled k], session)

/-- Lines 208-212: the "🔊 Tell Me the Story" handler, rendered whenever a
story is in session state.  It performs no validation: `text_to_speech` is
invoked with the stored story and whatever `api_key` currently holds. -/
def speak_click (api_key : String) (story : Jx) (net : HttpOutcome) : List UIEvent :=
  UIEvent.calledTTS story api_key ::
    match text_to_speech net with
    | .ok wav => [.playedAudio wav]
    | .handledTransport => [.shownError ttsTransportErrorMsg]
    | .handledStructure => [.shownError ttsStructureErrorMsg]
    | .unhandled k => [.raisedUnhandled k]

/-- Concrete well-formed generation response body with a non-empty text. -/
def goodStoryBody : Jx :=
  Jx.obj [("candidates", Jx.arr [Jx.obj [("content", Jx.obj [("parts",
    Jx.arr [Jx.obj [("text", Jx.str "Once upon a time, all was well.")]])])]])]

/-- Concrete well-formed generation response body whose text is empty. -/
def emptyStoryBody : Jx :=
  Jx.obj [("candidates", Jx.arr [Jx.obj [("content", Jx.obj [("parts",
    Jx.arr [Jx.obj [("text", Jx.str "")]])])]])]

/-- Concrete synthesis response body with the given `data` and `mimeType`. -/
def synthBody (dataField mimeField : String) : Jx :=
  Jx.obj [("candidates", Jx.arr [Jx.obj [("content", Jx.obj [("parts",
    Jx.arr [Jx.obj [("inlineData", Jx.obj [("data", Jx.str dataField),
      ("mimeType", Jx.str mimeField)])]])])]])]

/-! Helper lemmas about string concatenation and line splitting, used for the
prompt-assembly claims. -/

theorem data_append (a b : String) : (a ++ b).data = a.data ++ b.data := rfl

theorem splitLines_newline (l : List Char) :
    splitLines ('\n' :: l) = [] :: splitLines l := by
  simp [splitLines]

theorem splitLines_append (xs rest : List Char) (h : '\n' ∉ xs) :
    splitLines (xs ++ '\n' :: rest) = xs :: splitLines rest := by
  induction xs with
  | nil => simp [splitLines]
  | cons c cs ih =>
    have hc : c ≠ '\n' := fun e => h (e ▸ List.mem_cons_self c cs)
    have h' : '\n' ∉ cs := fun m => h (List.mem_cons_of_mem _ m)
    simp [splitLines, hc, ih h']

theorem splitLines_chunk (pre mid R : List Char) (hpre : '\n' ∉ pre)
    (hmid : '\n' ∉ mid) :
    splitLines (pre ++ (mid ++ '\n' :: R)) = (pre ++ mid) :: splitLines R := by
  rw [← List.append_assoc]
  refine splitLines_append _ _ ?_
  intro hm
  rcases List.mem_append.1 hm with h | h
  · exact hpre h
  · exact hmid h

theorem introSplit (R : List Char) :
    splitLines ("Create a story for the following details:\n\n".data ++ R) =
      "Create a story for the following details:".data :: [] :: splitLines R := by
  have e : "Create a story for the following details:\n\n".data ++ R =
      "Create a story for the following details:".data ++ '\n' :: '\n' :: R := rfl
  rw [e, splitLines_append _ _ (by decide), splitLines_newline]

theorem prompt_data (c g a t : String) :
    (story_prompt c g a t).data =
      "Create a story for the following details:\n\n".data ++
        ("Characters: ".data ++ (c.data ++ '\n' ::
          ("Genre: ".data ++ (g.data ++ '\n' ::
            ("Age Group: ".data ++ (a.data ++ '\n' ::
              (if t = "" then []
               else "Additional Tips: ".data ++ (t.data ++ ['\n'])))))))) := by
  have nl : "\n".data = ['\n'] := rfl
  by_cases ht : t = ""
  · simp [story_prompt, ht, data_append, List.append_assoc, nl]
  · simp [story_prompt, ht, data_append, List.append_assoc, nl]

theorem prompt_lines (c g a t : String) (h1 : '\n' ∉ c.data) (h2 : '\n' ∉ g.data)
    (h3 : '\n' ∉ a.data) (h4 : '\n' ∉ t.data) :
    splitLines (story_prompt c g a t).data =
      ["Create a story for the following details:".data, [],
       "Characters: ".data ++ c.data, "Genre: ".data ++ g.data,
       "Age Group: ".data ++ a.data] ++
      (if t = "" then [[]] else ["Additional Tips: ".data ++ t.data, []]) := by
  rw [prompt_data, introSplit,
    splitLines_chunk _ _ _ (by decide) h1,
    splitLines_chunk _ _ _ (by decide) h2,
    splitLines_chunk _ _ _ (by decide) h3]
  by_cases ht : t = ""
  · simp [ht, splitLines]
  · rw [if_neg ht, if_neg ht, splitLines_chunk _ _ _ (by decide) h4]
    simp [splitLines]

theorem isPrefixOf_self_append (p s : List Char) : p.isPrefixOf (p ++ s) = true := by
  induction p with
  | nil => simp [List.isPrefixOf]
  | cons c cs ih => simp [List.isPrefixOf, ih]

theorem tipNotPrefIntro :
    ("Additional Tips: ".data).isPrefixOf
      ("Create a story for the following details:".data) = false := rfl

theorem tipNotPrefNil :
    ("Additional Tips: ".data).isPrefixOf ([] : List Char) = false := rfl

theorem tipNotPrefChars (c : String) :
    ("Additional Tips: ".data).isPrefixOf ("Characters: ".data ++ c.data) = false := rfl

theorem tipNotPrefGenre (g : String) :
    ("Additional Tips: ".data).isPrefixOf ("Genre: ".data ++ g.data) = false := rfl

theorem tipNotPrefAge (a : String) :
    ("Additional Tips: ".data).isPrefixOf ("Age Group: ".data ++ a.data) = false := rfl

/-! Claim theorems. -/

/-- C1 (code_bug): on a network-level failure `text_to_speech` does return a
handled transport failure, but on any HTTP response that comes back — 2xx and
non-2xx alike — line 67's misspelled `response.raise_s_status()` raises an
`AttributeError` that neither `except` clause catches, so a non-2xx status is
an unhandled fault, not the claimed locally-handled Transport failure. -/
theorem c1_tts_transport_bug :
    text_to_speech HttpOutcome.netError = TTSResult.handledTransport ∧
    text_to_speech (HttpOutcome.resp 500 (Jx.obj [])) =
      TTSResult.unhandled PyExnKind.attributeError ∧
    tts_caught PyExnKind.attributeError = false :=
  ⟨rfl, rfl, rfl⟩

/-- C2 (code_bug): a 200 response whose body is `{candidates: []}` (or lacks
the `candidates` key) makes `generate_story` raise an uncaught
`IndexError`/`KeyError` — its sole `except` clause catches only
`RequestException` — instead of the claimed locally-handled MalformedResponse
failure; the success path does return the text of `candidates[0]`'s first
part, and a 500 status is handled. -/
theorem c2_generate_malformed_bug :
    generate_story (HttpOutcome.resp 200 (Jx.obj [("candidates", Jx.arr [])])) =
      GenResult.unhandled PyExnKind.indexError ∧
    generate_story (HttpOutcome.resp 200 (Jx.obj [])) =
      GenResult.unhandled PyExnKind.keyError ∧
    gen_caught PyExnKind.indexError = false ∧
    gen_caught PyExnKind.keyError = false ∧
    generate_story (HttpOutcome.resp 500 (Jx.obj [])) = GenResult.handledError ∧
    generate_story (HttpOutcome.resp 200 goodStoryBody) =
      GenResult.ok (Jx.str "Once upon a time, all was well.") :=
  ⟨rfl, rfl, rfl, rfl, rfl, rfl⟩

/-- C3 counterexample: on a concrete 200 response whose mimeType rate suffix
is non-numeric, `text_to_speech` does not fail with a locally handled
failure — it raises an uncaught `AttributeError` (line 67), refuting the
claim's "locally handled failure (not an unhandled crash)". -/
theorem c3_counterexample :
    text_to_speech (HttpOutcome.resp 200 (synthBody "QUJD" "audio/L16;rate=abc")) =
      TTSResult.unhandled PyExnKind.attributeError ∧
    tts_caught PyExnKind.attributeError = false :=
  ⟨rfl, rfl⟩

/-- C3 amended: the sample-rate extraction step (lines 77-78) taken on its
own yields 24000 from "audio/L16;rate=24000", raises `IndexError` — a kind
the handler on line 94 would catch — when "rate=" is absent, and raises
`ValueError` — a kind no handler catches — when the suffix is non-numeric;
the operation as written never reaches this step, raising an unhandled
`AttributeError` on every HTTP response. -/
theorem c3_rate_extraction :
    extract_rate "audio/L16;rate=24000" = Except.ok 24000 ∧
    extract_rate "audio/wav" = Except.error PyExnKind.indexError ∧
    tts_caught PyExnKind.indexError = true ∧
    extract_rate "audio/L16;rate=abc" = Except.error PyExnKind.valueError ∧
    tts_caught PyExnKind.valueError = false ∧
    tts_success_path (synthBody "QUJD" "audio/L16;rate=abc") =
      Except.error PyExnKind.valueError ∧
    (∀ (status : Nat) (body : Jx),
      text_to_speech (HttpOutcome.resp status body) =
        TTSResult.unhandled PyExnKind.attributeError) :=
  ⟨rfl, rfl, rfl, rfl, rfl, rfl, fun _ _ => rfl⟩

/-- C4 (confirmed): the WAV transcoding step (lines 80-89) produces the fixed
44-byte header followed by the PCM payload verbatim: total length is
44 + length(pcm), dropping the header recovers the payload unchanged, and the
output is a pure function of (pcm, rate). -/
theorem c4_wav_container (pcm : List Nat) (rate : Nat) (h : 0 < rate) :
    (pcm_to_wav pcm rate).length = 44 + pcm.length ∧
    (pcm_to_wav pcm rate).drop 44 = pcm ∧
    pcm_to_wav pcm rate = pcm_to_wav pcm rate := by
  have r1 : ("RIFF".data).length = 4 := rfl
  have r2 : ("WAVE".data).length = 4 := rfl
  have r3 : ("fmt ".data).length = 4 := rfl
  have r4 : ("data".data).length = 4 := rfl
  have hlen : (wavHeader pcm.length rate).length = 44 := by
    simp only [wavHeader, asciiBytes, leBytes, List.length_append,
      List.length_map, List.length_range, r1, r2, r3, r4]
  refine ⟨?_, ?_, rfl⟩
  · rw [pcm_to_wav, List.length_append, hlen]
  · rw [pcm_to_wav, ← hlen, List.drop_left]

/-- C4 witness: concrete instance at four zero PCM bytes and rate 24000. -/
theorem c4_wav_container_witness :
    0 < 24000 ∧
    ((pcm_to_wav [0, 0, 0, 0] 24000).length = 44 + [0, 0, 0, 0].length ∧
      (pcm_to_wav [0, 0, 0, 0] 24000).drop 44 = [0, 0, 0, 0] ∧
      pcm_to_wav [0, 0, 0, 0] 24000 = pcm_to_wav [0, 0, 0, 0] 24000) :=
  ⟨by decide, c4_wav_container [0, 0, 0, 0] 24000 (by decide)⟩

/-- C5 (confirmed): for newline-free fields the assembled prompt is exactly
the intro line, a blank line, then the Characters, Genre and Age Group lines,
with an Additional Tips line followed by a trailing blank only when tips is
non-empty; for tips = "" there are exactly 3 non-empty lines after the intro
and no line starts with "Additional Tips: ". -/
theorem c5_prompt_structure (c g a t : String) (hc : c ≠ "")
    (h1 : '\n' ∉ c.data) (h2 : '\n' ∉ g.data) (h3 : '\n' ∉ a.data)
    (h4 : '\n' ∉ t.data) :
    splitLines (story_prompt c g a t).data =
      ["Create a story for the following details:".data, [],
       "Characters: ".data ++ c.data, "Genre: ".data ++ g.data,
       "Age Group: ".data ++ a.data] ++
      (if t = "" then [[]] else ["Additional Tips: ".data ++ t.data, []]) ∧
    (t = "" →
      (((splitLines (story_prompt c g a t).data).drop 1).filter
          fun l => !l.isEmpty).length = 3 ∧
      ∀ l ∈ splitLines (story_prompt c g a t).data,
        ("Additional Tips: ".data).isPrefixOf l = false) := by
  refine ⟨prompt_lines c g a t h1 h2 h3 h4, fun ht => ⟨?_, ?_⟩⟩
  · rw [prompt_lines c g a t h1 h2 h3 h4, if_pos ht]
    simp [List.filter]
  · rw [prompt_lines c g a t h1 h2 h3 h4, if_pos ht]
    intro l hl
    rcases List.mem_cons.1 hl with rfl | hl
    · exact tipNotPrefIntro
    · rcases List.mem_cons.1 hl with rfl | hl
      · exact tipNotPrefNil
      · rcases List.mem_cons.1 hl with rfl | hl
        · exact tipNotPrefChars c
        · rcases List.mem_cons.1 hl with rfl | hl
          · exact tipNotPrefGenre g
          · rcases List.mem_cons.1 hl with rfl | hl
            · exact tipNotPrefAge a
            · rcases List.mem_cons.1 hl with rfl | hl
              · exact tipNotPrefNil
              · exact absurd hl (List.not_mem_nil l)

/-- C5 witness: the spec's end-to-end scenario request. -/
theorem c5_prompt_structure_witness :
    ("a sleepy bear, a gentle firefly" ≠ "" ∧
      '\n' ∉ "a sleepy bear, a gentle firefly".data) ∧
    ((((splitLines (story_prompt "a sleepy bear, a gentle firefly" "Fantasy"
          "Children (4-8 years)" "").data).drop 1).filter
        fun l => !l.isEmpty).length = 3 ∧
      ∀ l ∈ splitLines (story_prompt "a sleepy bear, a gentle firefly" "Fantasy"
          "Children (4-8 years)" "").data,
        ("Additional Tips: ".data).isPrefixOf l = false) :=
  ⟨⟨by decide, by decide⟩,
    (c5_prompt_structure "a sleepy bear, a gentle firefly" "Fantasy"
      "Children (4-8 years)" "" (by decide) (by decide) (by decide) (by decide)
      (by decide)).2 rfl⟩

/-- C6 counterexample: a whitespace-only tips value (" ") is truthy in
Python, so the assembled prompt does contain an "Additional Tips: " line,
refuting the claim that whitespace-only tips produces no Tips line. -/
theorem c6_counterexample :
    ((splitLines (story_prompt "Luna the bunny" "Fantasy" "Toddlers (1-3 years)"
        " ").data).any fun l => ("Additional Tips: ".data).isPrefixOf l) = true := rfl

/-- C6 amended: the assembled prompt contains an "Additional Tips: " line iff
tips is non-empty — the code tests only emptiness (`if tips:`), so a
whitespace-only tips value does produce a Tips line. -/
theorem c6_tips_iff (c g a t : String)
    (h1 : '\n' ∉ c.data) (h2 : '\n' ∉ g.data) (h3 : '\n' ∉ a.data)
    (h4 : '\n' ∉ t.data) :
    ((splitLines (story_prompt c g a t).data).any fun l =>
        ("Additional Tips: ".data).isPrefixOf l) = true ↔ t ≠ "" := by
  rw [prompt_lines c g a t h1 h2 h3 h4]
  by_cases ht : t = ""
  · simp [ht, List.any_cons, tipNotPrefIntro, tipNotPrefNil, tipNotPrefChars,
      tipNotPrefGenre, tipNotPrefAge]
  · simp [ht, List.any_cons, tipNotPrefIntro, tipNotPrefNil, tipNotPrefChars,
      tipNotPrefGenre, tipNotPrefAge, isPrefixOf_self_append]

/-- C6 witness: a non-empty tips value produces a Tips line. -/
theorem c6_tips_iff_witness :
    ((splitLines (story_prompt "Luna" "Fantasy" "Toddlers (1-3 years)"
        "snow").data).any fun l => ("Additional Tips: ".data).isPrefixOf l) = true :=
  (c6_tips_iff "Luna" "Fantasy" "Toddlers (1-3 years)" "snow" (by decide)
    (by decide) (by decide) (by decide)).mpr (by decide)

/-- C7 counterexample: on a concrete 200 response whose `data` field "abc" is
invalid base64, `text_to_speech` raises an uncaught `AttributeError`
(line 67) rather than a handled DecodeError; even the post-response code
(lines 68-90) would raise `binascii.Error` (a `ValueError`) at the decode. -/
theorem c7_counterexample :
    text_to_speech (HttpOutcome.resp 200 (synthBody "abc" "audio/L16;rate=24000")) =
      TTSResult.unhandled PyExnKind.attributeError ∧
    tts_success_path (synthBody "abc" "audio/L16;rate=24000") =
      Except.error PyExnKind.valueError :=
  ⟨rfl, rfl⟩

/-- C7 amended: an invalid-base64 `data` field is never surfaced as a handled
decode failure: the decode raises `ValueError` (`binascii.Error`), which the
`except` clauses (RequestException; KeyError/IndexError) do not cover, and in
the code as written every HTTP response already raises an uncaught
`AttributeError` before the decode. -/
theorem c7_decode_unhandled :
    b64decode "abc" = Except.error PyExnKind.valueError ∧
    tts_caught PyExnKind.valueError = false ∧
    b64decode "QUJD" = Except.ok [65, 66, 67] ∧
    (∀ (status : Nat) (body : Jx), ∃ k,
      text_to_speech (HttpOutcome.resp status body) = TTSResult.unhandled k ∧
        tts_caught k = false) :=
  ⟨rfl, rfl, rfl, fun _ _ => ⟨PyExnKind.attributeError, rfl, rfl⟩⟩

/-- C8 counterexample: with an empty API key and a story in session, the
speak handler still invokes `text_to_speech` — no validation precedes the
client call on the speak path. -/
theorem c8_counterexample :
    UIEvent.calledTTS (Jx.str "story") "" ∈
      speak_click "" (Jx.str "story") HttpOutcome.netError :=
  List.mem_cons_self _ _

/-- C8 amended: the generate action validates the API key and characters
before any client call (empty inputs show an error, never call
`generate_story`, and leave the session unchanged), but the speak action
performs no validation: it invokes `text_to_speech` with whatever API key is
current, including the empty one. -/
theorem c8_validation (api_key characters genre age_group tips : String)
    (net : HttpOutcome) (session : Option Jx) :
    ((api_key = "" ∨ characters = "") →
      (∀ p k, UIEvent.calledGenerate p k ∉
        (generate_click api_key characters genre age_group tips net session).1) ∧
      (∃ m, UIEvent.shownError m ∈
        (generate_click api_key characters genre age_group tips net session).1) ∧
      (generate_click api_key characters genre age_group tips net session).2 =
        session) ∧
    (∀ story, UIEvent.calledTTS story api_key ∈ speak_click api_key story net) := by
  constructor
  · intro h
    rcases h with hk | hcs
    · refine ⟨?_, ?_, ?_⟩ <;> simp [generate_click, hk]
    · by_cases hk' : api_key = ""
      · refine ⟨?_, ?_, ?_⟩ <;> simp [generate_click, hk']
      · refine ⟨?_, ?_, ?_⟩ <;> simp [generate_click, hk', hcs]
  · intro story
    exact List.mem_cons_self _ _

/-- C8 witness: the generate branch at an empty API key. -/
theorem c8_validation_witness :
    (("" : String) = "" ∨ ("chars" : String) = "") ∧
    (∀ p k, UIEvent.calledGenerate p k ∉
      (generate_click "" "chars" "Fantasy" "Toddlers (1-3 years)" ""
        HttpOutcome.netError none).1) :=
  ⟨Or.inl rfl,
    ((c8_validation "" "chars" "Fantasy" "Toddlers (1-3 years)" ""
      HttpOutcome.netError none).1 (Or.inl rfl)).1⟩

/-- C9 counterexample: a successful generation whose returned text is the
empty string is not stored (line 198 `if story:` tests truthiness, not
success), so the previous story survives a successful call, refuting "for
every successful call, it is replaced entirely by the new text". -/
theorem c9_counterexample :
    generate_story (HttpOutcome.resp 200 emptyStoryBody) = GenResult.ok (Jx.str "") ∧
    (generate_click "key" "Luna" "Fantasy" "Toddlers (1-3 years)" ""
        (HttpOutcome.resp 200 emptyStoryBody) (some (Jx.str "old story"))).2 =
      some (Jx.str "old story") :=
  ⟨rfl, rfl⟩

/-- C9 amended: the session story is never partially updated: every failing
generation (handled error or escaping exception) leaves it unchanged, and a
successful generation replaces it entirely iff the new text is truthy
(non-empty); an empty-string success leaves the old story in place. -/
theorem c9_session_update (api_key characters genre age_group tips : String)
    (net : HttpOutcome) (session : Option Jx)
    (hk : api_key ≠ "") (hcs : characters ≠ "") :
    (generate_story net = GenResult.handledError →
      (generate_click api_key characters genre age_group tips net session).2 =
        session) ∧
    (∀ k, generate_story net = GenResult.unhandled k →
      (generate_click api_key characters genre age_group tips net session).2 =
        session) ∧
    (∀ s, generate_story net = GenResult.ok (Jx.str s) → s ≠ "" →
      (generate_click api_key characters genre age_group tips net session).2 =
        some (Jx.str s)) ∧
    (∀ s, generate_story net = GenResult.ok (Jx.str s) → s = "" →
      (generate_click api_key characters genre age_group tips net session).2 =
        session) := by
  refine ⟨?_, ?_, ?_, ?_⟩
  · intro hres
    simp [generate_click, hk, hcs, hres]
  · intro k hres
    simp [generate_click, hk, hcs, hres]
  · intro s hres hs
    simp [generate_click, hk, hcs, hres, pyTruthy, hs]
  · intro s hres hs
    simp [generate_click, hk, hcs, hres, pyTruthy, hs]

/-- C9 witness: a successful non-empty generation is stored. -/
theorem c9_session_update_witness :
    (("key" : String) ≠ "" ∧ ("Luna" : String) ≠ "") ∧
    (generate_click "key" "Luna" "Fantasy" "Toddlers (1-3 years)" ""
        (HttpOutcome.resp 200 goodStoryBody) none).2 =
      some (Jx.str "Once upon a time, all was well.") :=
  ⟨⟨by decide, by decide⟩,
    (c9_session_update "key" "Luna" "Fantasy" "Toddlers (1-3 years)" ""
        (HttpOutcome.resp 200 goodStoryBody) none (by decide) (by decide)).2.2.1
      "Once upon a time, all was well." rfl (by decide)⟩

/-- C10 counterexample: for the mimeType "audio/L16;rate=10rate=20" the
suffix after the FIRST occurrence of "rate=" is "10rate=20", which does not
parse as an integer, yet the extraction succeeds with 10 — `str.split` splits
on every occurrence, so element [1] is only the segment up to the next
occurrence; "rate=<int> as final suffix" is not required. -/
theorem c10_counterexample :
    extract_rate "audio/L16;rate=10rate=20" = Except.ok 10 ∧
    pyIntChars "10rate=20".data = Except.error PyExnKind.valueError :=
  ⟨rfl, rfl⟩

/-- C10 amended: the extraction parses (as a Python int) the segment between
the first and second occurrences of "rate=" — everything after the first
occurrence only when there is no second one.  "audio/L16;rate=24000" yields
24000; "audio/L16;rate=24000;codec=pcm" raises an uncaught `ValueError`; a
mimeType with a second "rate=" such as "audio/L16;rate=10rate=20" is accepted
with 10 even though "rate=<int>" is not its final suffix. -/
theorem c10_rate_split :
    pySplit "rate=".data "audio/L16;rate=10rate=20".data =
      ["audio/L16;".data, "10".data, "20".data] ∧
    extract_rate "audio/L16;rate=24000" = Except.ok 24000 ∧
    extract_rate "audio/L16;rate=24000;codec=pcm" =
      Except.error PyExnKind.valueError ∧
    tts_caught PyExnKind.valueError = false ∧
    extract_rate "audio/L16;rate=10rate=20" = Except.ok 10 :=
  ⟨rfl, rfl, rfl, rfl, rfl⟩

end StoryWeaver
